import Mathlib

/-!
Shallow embedding of the spaces-download-mcp adapter (TypeScript sources
`src/index.ts` and the express variant) and verification of its spec.

The adapter translates MCP tool calls into HTTP calls against a backend.
The core logic is `pollForCompletion`, a bounded fixed-interval poll loop,
plus the tool handlers in `handleCallTool` and the JSON-RPC dispatcher
`handleMcpRequest`.

Backend interactions are modelled by an oracle: each endpoint is a function
returning `Except String v` — the result of `makeApiRequest` at that
endpoint (`.error msg` models a thrown request error, already carrying its
rendered message).  Effects are made explicit: the poll loop returns the
number of status calls and the list of sleep durations it performed, and
the handlers return the list of network calls they issued, in order.
-/

namespace SpacesMcp

/-- A status snapshot returned by the backend status endpoints
(TS `StatusResponse` / `TranscriptionStatusResponse`; fields the code
reads). -/
structure Snapshot where
  status : String
  message : String
  error : Option String := none
  space_id : Option String := none
  filename : Option String := none
  r2_url : Option String := none
deriving Repr, DecidableEq

/-- JavaScript `a || b` on a possibly-absent string: falls back to the
default when the option is `none` **or** holds the empty string (both are
falsy in JS). -/
def jsOrStr : Option String → String → String
  | none, d => d
  | some s, d => if s = "" then d else s

/-- JavaScript template-literal interpolation of a possibly-absent string:
`undefined` prints as the string "undefined". -/
def jsShow : Option String → String
  | none => "undefined"
  | some s => s

/-- JS truthiness of a possibly-absent string (used for `if (x)` and
`x ? a : b` on optional string fields). -/
def jsTruthy : Option String → Bool
  | none => false
  | some s => s ≠ ""

/-- Errors that end a `pollForCompletion` run.  In TS these are thrown
`Error`s; the constructor distinguishes the three throw sites and carries
the data interpolated into the message. -/
inductive PollError where
  /-- an error propagated from `makeApiRequest` on a status call -/
  | apiError (msg : String)
  /-- `Operation failed: ...` thrown when the status is in
  `failedStatuses` -/
  | operationFailed (msg : String)
  /-- `Operation timed out after N attempts` thrown when the attempt
  budget is exhausted -/
  | timeout (attempts : Nat)
deriving Repr, DecidableEq

/-- Rendered message of a poll error, exactly the TS `Error.message`. -/
def PollError.message : PollError → String
  | .apiError m => m
  | .operationFailed m => "Operation failed: " ++ m
  | .timeout n => "Operation timed out after " ++ toString n ++ " attempts"

/-- Result of a poll run together with its observable effects: how many
status calls were made and the list of sleep durations, in order. -/
structure PollOutcome where
  result : Except PollError Snapshot
  statusCalls : Nat
  sleeps : List Nat
deriving Repr

instance exceptDecEq {α β : Type} [DecidableEq α] [DecidableEq β] :
    DecidableEq (Except α β) := fun a b =>
  match a, b with
  | .error x, .error y =>
    match decEq x y with
    | isTrue h => isTrue (by rw [h])
    | isFalse h => isFalse (fun hc => h (by injection hc))
  | .ok x, .ok y =>
    match decEq x y with
    | isTrue h => isTrue (by rw [h])
    | isFalse h => isFalse (fun hc => h (by injection hc))
  | .error _, .ok _ => isFalse (fun hc => Except.noConfusion hc)
  | .ok _, .error _ => isFalse (fun hc => Except.noConfusion hc)

instance : DecidableEq PollOutcome := fun a b => by
  cases a; cases b
  rename_i r1 c1 s1 r2 c2 s2
  exact match decEq r1 r2, decEq c1 c2, decEq s1 s2 with
  | isTrue h1, isTrue h2, isTrue h3 => isTrue (by rw [h1, h2, h3])
  | isFalse h1, _, _ => isFalse (fun hc => h1 (by injection hc))
  | _, isFalse h2, _ => isFalse (fun hc => h2 (by injection hc))
  | _, _, isFalse h3 => isFalse (fun hc => h3 (by injection hc))

/-- The body of `pollForCompletion`'s `for` loop, recursing on the number
of remaining attempts (`fuel`); `attempt` is the TS loop counter.  Each
iteration calls the backend once; a completed status returns the snapshot,
a failed status throws `Operation failed`, and otherwise the loop sleeps
`intervalMs` and continues.  When the fuel runs out the loop exits and
throws the timeout error naming `maxAttempts`. -/
def pollGo (backend : Nat → Except String Snapshot)
    (completedStatuses failedStatuses : List String)
    (maxAttempts intervalMs : Nat) : Nat → Nat → PollOutcome
  | _, 0 => ⟨Except.error (PollError.timeout maxAttempts), 0, []⟩
  | attempt, fuel + 1 =>
    match backend attempt with
    | Except.error e => ⟨Except.error (PollError.apiError e), 1, []⟩
    | Except.ok status =>
      if completedStatuses.contains status.status then
        ⟨Except.ok status, 1, []⟩
      else if failedStatuses.contains status.status then
        ⟨Except.error (PollError.operationFailed
            (jsOrStr status.error status.message)), 1, []⟩
      else
        let rest := pollGo backend completedStatuses failedStatuses
          maxAttempts intervalMs (attempt + 1) fuel
        ⟨rest.result, rest.statusCalls + 1, intervalMs :: rest.sleeps⟩

/-- TS `pollForCompletion(statusUrl, config, completedStatuses,
failedStatuses, maxAttempts, intervalMs)`.  The status URL and config are
abstracted into the backend oracle, which gives the result of
`makeApiRequest(statusUrl, config)` on the n-th attempt (n starting
at 0). -/
def pollForCompletion (backend : Nat → Except String Snapshot)
    (completedStatuses failedStatuses : List String)
    (maxAttempts intervalMs : Nat) : PollOutcome :=
  pollGo backend completedStatuses failedStatuses maxAttempts intervalMs
    0 maxAttempts

/-- Default arguments of `pollForCompletion` in TS, used by the download
call sites. -/
def defaultCompleted : List String := ["completed"]

def defaultFailed : List String := ["failed"]

def downloadMaxAttempts : Nat := 60

def downloadIntervalMs : Nat := 5000

/-- Arguments passed explicitly at the transcription call sites. -/
def transcribeMaxAttempts : Nat := 120

def transcribeIntervalMs : Nat := 10000

/-- The object read from `result.space_info` (typed `any` in TS; only
these fields are accessed, each through `x || 'Unknown'`). -/
structure SpaceInfoAny where
  title : Option String := none
  creator_name : Option String := none
  state : Option String := none
deriving Repr, DecidableEq

/-- TS `SpaceAvailabilityResponse`. -/
structure SpaceAvailabilityResponse where
  available : Bool
  status : Option String := none
  error : Option String := none
  space_info : Option SpaceInfoAny := none
deriving Repr, DecidableEq

/-- TS `DownloadResponse`. -/
structure DownloadResponse where
  download_id : String
  status : String
  message : String
deriving Repr, DecidableEq

/-- TS `TranscribeResponse`. -/
structure TranscribeResponse where
  transcription_id : String
  space_id : String
  status : String
  message : String
deriving Repr, DecidableEq

/-- TS `SpaceInfo` as rendered by `list_spaces`. -/
structure SpaceInfo where
  id : String
  title : String
  creator_name : String
  creator_screen_name : String
  start_date : String
  has_audio : Bool
  has_transcript : Bool
  audio_size : Option Nat := none
  state : Option String := none
deriving Repr, DecidableEq

/-- Response of `GET /api/spaces`; `spaces` may be absent
(`response.spaces || []` in the handler). -/
structure SpacesResponse where
  r2_configured : Bool
  spaces : Option (List SpaceInfo) := none
deriving Repr, DecidableEq

/-- Oracle for the backend HTTP API.  Each field gives the result of the
corresponding request: `Except.error msg` models the call throwing, with
`msg` the thrown error's rendered message (for `makeApiRequest` that is
the `API request failed: ...` string; for the raw fetch in
`get_transcript` it is the `HTTP <status>: <body>` string).  The two
status endpoints take the attempt number because the poll loop re-fetches
them once per tick.  `startTranscribe` takes the optional `space_id`
taken from the download snapshot in the combined workflow (an absent id
is omitted from the serialized JSON body). -/
structure ApiBackend where
  checkSpace : String → Except String SpaceAvailabilityResponse
  startDownload : String → Except String DownloadResponse
  downloadStatus : String → Nat → Except String Snapshot
  startTranscribe : Option String → Except String TranscribeResponse
  transcriptionStatus : String → Nat → Except String Snapshot
  fetchTranscript : String → String → Except String String
  listSpaces : Except String SpacesResponse

/-- One outbound HTTP call, as recorded in a handler's network trace. -/
inductive NetCall where
  | checkSpace (spaceId : String)
  | startDownload (spaceUrl : String)
  | downloadStatus (downloadId : String)
  | startTranscribe (spaceId : Option String)
  | transcriptionStatus (transcriptionId : String)
  | fetchTranscript (spaceId format : String)
  | listSpaces
deriving Repr, DecidableEq

/-- Character class `[a-zA-Z0-9]` of the space-id regex (`Char.isAlphanum`
is exactly ASCII letters and digits). -/
def isSpaceIdChar (c : Char) : Bool := c.isAlphanum

/-- The literal part of the regex `\/spaces\/([a-zA-Z0-9]+)`. -/
def spacesLit : List Char := "/spaces/".data

/-- Try to match `\/spaces\/([a-zA-Z0-9]+)` at the start of `l`: the
first 8 characters must be `/spaces/` and at least one alphanumeric
character must follow; the capture is the maximal alphanumeric run
(the regex `+` is greedy). -/
def captureAt (l : List Char) : Option (List Char) :=
  if l.take 8 = spacesLit then
    if (l.drop 8).takeWhile isSpaceIdChar = [] then none
    else some ((l.drop 8).takeWhile isSpaceIdChar)
  else none

/-- Scan left to right for the first position where the regex matches,
returning its capture group — JS `String.prototype.match` first-match
semantics. -/
def findSpaceId : List Char → Option (List Char)
  | [] => none
  | c :: rest =>
    match captureAt (c :: rest) with
    | some cap => some cap
    | none => findSpaceId rest

/-- TS `space_url.match(/\/spaces\/([a-zA-Z0-9]+)/)`, returning the
capture group (`spaceIdMatch[1]`) when the regex matches. -/
def extractSpaceId (s : String) : Option String :=
  (findSpaceId s.data).map fun l => String.mk l

/-- Spec-level reading of "contains a path segment matching /spaces/
followed by one or more alphanumeric characters": somewhere in the
string, the literal `/spaces/` occurs immediately followed by an
alphanumeric character. -/
def HasSpacesSegment (s : String) : Prop :=
  ∃ pre c rest, s.data = pre ++ spacesLit ++ c :: rest ∧ isSpaceIdChar c = true

/-- JS `a || b` on a plain (non-optional) string: empty string is falsy. -/
def jsOrS (s d : String) : String :=
  if s = "" then d else s

/-- JS truthiness of an optional number (`0`, `null` and `undefined` are
falsy). -/
def jsTruthyNat : Option Nat → Bool
  | none => false
  | some n => n ≠ 0

/-- Errors thrown inside a `handleCallTool` case before its catch block
converts them to a text result.  Each constructor records one throw site
(or a propagated poll/request error) with the data its message
interpolates. -/
inductive ToolError where
  | invalidSpaceUrl
  | api (msg : String)
  | spaceNotAvailable (error : Option String)
  | poll (e : PollError)
  | unknownTool (name : String)
deriving Repr, DecidableEq

/-- Rendered message of a thrown tool error, exactly the TS
`Error.message` at the corresponding throw site. -/
def ToolError.message : ToolError → String
  | .invalidSpaceUrl => "Invalid space URL format"
  | .api m => m
  | .spaceNotAvailable e => "Space not available: " ++ jsShow e
  | .poll e => e.message
  | .unknownTool n => "Unknown tool: " ++ n

/-- One entry of a tool result's `content` array. -/
structure ContentItem where
  type : String
  text : String
deriving Repr, DecidableEq

/-- The value a tool handler returns: a `content` array.  Every return
site in the source produces a single text item. -/
structure ToolResult where
  content : List ContentItem
deriving Repr, DecidableEq

/-- The `content: [ (type: text, text: s) ]` shape used by every return
site. -/
def textResult (s : String) : ToolResult :=
  ⟨[⟨"text", s⟩]⟩

/-- Arguments of a `tools/call` request: the tool `name` plus the union
of all tool argument fields (absent fields are `none`). -/
structure CallParams where
  name : String
  space_url : Option String := none
  space_id : Option String := none
  wait_for_completion : Option Bool := none
  format : Option String := none
deriving Repr, DecidableEq

/-- Success text of `check_space_availability` (the emoji are written as
intended; the checked-in source holds mojibake bytes for them). -/
def availabilityText (space_url : String) (result : SpaceAvailabilityResponse) : String :=
  "Space Availability Check for " ++ space_url ++ ":\n\n" ++
  "Available: " ++ (if result.available then "✅ Yes" else "❌ No") ++ "\n" ++
  "Status: " ++ jsOrStr result.status "Unknown" ++ "\n" ++
  (if jsTruthy result.error then "Error: " ++ jsShow result.error ++ "\n" else "") ++
  (match result.space_info with
   | some si => "Title: " ++ jsOrStr si.title "Unknown" ++ "\n"
   | none => "") ++
  (match result.space_info with
   | some si => "Creator: " ++ jsOrStr si.creator_name "Unknown" ++ "\n"
   | none => "") ++
  (match result.space_info with
   | some si => "State: " ++ jsOrStr si.state "Unknown" ++ "\n"
   | none => "")

/-- Text accumulated by `download_twitter_space` before any wait. -/
def startedDownloadText (space_url : String) (dr : DownloadResponse) : String :=
  "Started download for " ++ space_url ++ "\n" ++
  "Download ID: " ++ dr.download_id ++ "\n" ++
  "Status: " ++ dr.status ++ "\n" ++
  "Message: " ++ dr.message ++ "\n\n"

/-- Text appended by `download_twitter_space` after a successful poll. -/
def downloadCompletedText (finalStatus : Snapshot) : String :=
  "✅ Download completed!\n" ++
  "Space ID: " ++ jsShow finalStatus.space_id ++ "\n" ++
  "Filename: " ++ jsShow finalStatus.filename ++ "\n" ++
  (if jsTruthy finalStatus.r2_url then
    "R2 URL: " ++ jsShow finalStatus.r2_url ++ "\n" else "") ++
  "Final Message: " ++ finalStatus.message ++ "\n"

/-- Text accumulated by `transcribe_space` before any wait. -/
def startedTranscriptionText (space_id : String) (tr : TranscribeResponse) : String :=
  "Started transcription for space " ++ space_id ++ "\n" ++
  "Transcription ID: " ++ tr.transcription_id ++ "\n" ++
  "Status: " ++ tr.status ++ "\n" ++
  "Message: " ++ tr.message ++ "\n\n"

/-- Text appended by `transcribe_space` after a successful poll. -/
def transcriptionCompletedText (finalStatus : Snapshot) : String :=
  "✅ Transcription completed!\n" ++
  "Final Message: " ++ finalStatus.message ++ "\n" ++
  "\nYou can now download the transcript in different formats using the " ++
  "'get_transcript' tool."

/-- JS `(audio_size / 1024 / 1024).toFixed(2)`: megabytes with two
decimals, rounding half up (the double arithmetic of `toFixed` could
round a tie differently, which no claim depends on). -/
def mbText (n : Nat) : String :=
  let hundredths := (n * 100 + 524288) / 1048576
  toString (hundredths / 100) ++ "." ++
    (if hundredths % 100 < 10 then "0" else "") ++ toString (hundredths % 100)

/-- One entry of the `list_spaces` success text (the `forEach` body). -/
def renderSpaceEntry (index : Nat) (space : SpaceInfo) : String :=
  toString (index + 1) ++ ". " ++ jsOrS space.title "Untitled Space" ++ "\n" ++
  "   ID: " ++ space.id ++ "\n" ++
  "   Creator: " ++ jsOrS space.creator_name "Unknown" ++
    " (@" ++ jsOrS space.creator_screen_name "unknown" ++ ")\n" ++
  "   Date: " ++ jsOrS space.start_date "Unknown" ++ "\n" ++
  "   Audio: " ++ (if space.has_audio then "✅ Available" else "❌ Missing") ++ "\n" ++
  "   Transcript: " ++
    (if space.has_transcript then "✅ Available" else "❌ Not transcribed") ++ "\n" ++
  (if jsTruthyNat space.audio_size then
    "   Size: " ++ mbText (space.audio_size.getD 0) ++ " MB\n" else "") ++
  "   State: " ++ jsOrStr space.state "Unknown" ++ "\n\n"

/-- Success text of `download_and_transcribe_space` (the intermediate
`result +=` writes only become visible on this all-stages-succeeded
path; on a thrown error the accumulated text is discarded by the catch). -/
def completeProcessText (space_url : String) (dr : DownloadResponse)
    (downloadStatus : Snapshot) (tr : TranscribeResponse) : String :=
  "Starting complete process for " ++ space_url ++ "\n\n" ++
  "1. Checking space availability...\n" ++
  "   ✅ Space is available\n\n" ++
  "2. Starting download...\n" ++
  "   Download ID: " ++ dr.download_id ++ "\n" ++
  "   ✅ Download completed\n" ++
  "   Filename: " ++ jsShow downloadStatus.filename ++ "\n\n" ++
  "3. Starting transcription...\n" ++
  "   Transcription ID: " ++ tr.transcription_id ++ "\n" ++
  "   ✅ Transcription completed\n\n" ++
  "🎉 Complete! Space " ++ jsShow downloadStatus.space_id ++
    " has been downloaded and transcribed.\n" ++
  "Use the 'get_transcript' tool with space_id=\"" ++
    jsShow downloadStatus.space_id ++ "\" to view the transcript."

/-- Case `check_space_availability` of `handleCallTool`'s switch, before
the catch: may throw (left as `Except.error`).  The second component is
the list of HTTP calls issued, in order. -/
def caseCheckSpaceAvailability (args : CallParams) (b : ApiBackend) :
    Except ToolError ToolResult × List NetCall :=
  let space_url := args.space_url.getD ""
  match extractSpaceId space_url with
  | none => (Except.error ToolError.invalidSpaceUrl, [])
  | some spaceId =>
    match b.checkSpace spaceId with
    | Except.error e => (Except.error (ToolError.api e), [NetCall.checkSpace spaceId])
    | Except.ok result =>
      (Except.ok (textResult (availabilityText space_url result)),
       [NetCall.checkSpace spaceId])

/-- Case `download_twitter_space`: start the download, then optionally
poll `/api/status/` with the download defaults (60 attempts, 5000 ms). -/
def caseDownloadTwitterSpace (args : CallParams) (b : ApiBackend) :
    Except ToolError ToolResult × List NetCall :=
  let space_url := args.space_url.getD ""
  let wait := args.wait_for_completion.getD true
  match b.startDownload space_url with
  | Except.error e => (Except.error (ToolError.api e), [NetCall.startDownload space_url])
  | Except.ok dr =>
    if wait then
      let po := pollForCompletion (b.downloadStatus dr.download_id)
        defaultCompleted defaultFailed downloadMaxAttempts downloadIntervalMs
      let trace := NetCall.startDownload space_url ::
        List.replicate po.statusCalls (NetCall.downloadStatus dr.download_id)
      match po.result with
      | Except.error pe => (Except.error (ToolError.poll pe), trace)
      | Except.ok finalStatus =>
        (Except.ok (textResult (startedDownloadText space_url dr ++
          "Waiting for download to complete...\n\n" ++
          downloadCompletedText finalStatus)), trace)
    else
      (Except.ok (textResult (startedDownloadText space_url dr)),
       [NetCall.startDownload space_url])

/-- Case `transcribe_space`: start the transcription, then optionally
poll `/api/transcription/status/` with 120 attempts at 10000 ms. -/
def caseTranscribeSpace (args : CallParams) (b : ApiBackend) :
    Except ToolError ToolResult × List NetCall :=
  let space_id := args.space_id.getD ""
  let wait := args.wait_for_completion.getD true
  match b.startTranscribe (some space_id) with
  | Except.error e =>
    (Except.error (ToolError.api e), [NetCall.startTranscribe (some space_id)])
  | Except.ok tr =>
    if wait then
      let po := pollForCompletion (b.transcriptionStatus tr.transcription_id)
        ["completed"] ["failed"] transcribeMaxAttempts transcribeIntervalMs
      let trace := NetCall.startTranscribe (some space_id) ::
        List.replicate po.statusCalls (NetCall.transcriptionStatus tr.transcription_id)
      match po.result with
      | Except.error pe => (Except.error (ToolError.poll pe), trace)
      | Except.ok finalStatus =>
        (Except.ok (textResult (startedTranscriptionText space_id tr ++
          "Waiting for transcription to complete...\n\n" ++
          transcriptionCompletedText finalStatus)), trace)
    else
      (Except.ok (textResult (startedTranscriptionText space_id tr)),
       [NetCall.startTranscribe (some space_id)])

/-- Case `get_transcript`: single raw fetch of the formatted document. -/
def caseGetTranscript (args : CallParams) (b : ApiBackend) :
    Except ToolError ToolResult × List NetCall :=
  let space_id := args.space_id.getD ""
  let format := args.format.getD "paragraphs"
  match b.fetchTranscript space_id format with
  | Except.error e =>
    (Except.error (ToolError.api e), [NetCall.fetchTranscript space_id format])
  | Except.ok transcript =>
    (Except.ok (textResult ("Transcript for space " ++ space_id ++
      " (" ++ format ++ " format):\n\n" ++ transcript)),
     [NetCall.fetchTranscript space_id format])

/-- Case `list_spaces`: single fetch of `/api/spaces`; an unconfigured
store and an empty list are successful empty-state responses. -/
def caseListSpaces (b : ApiBackend) :
    Except ToolError ToolResult × List NetCall :=
  match b.listSpaces with
  | Except.error e => (Except.error (ToolError.api e), [NetCall.listSpaces])
  | Except.ok response =>
    if !response.r2_configured then
      (Except.ok (textResult "R2 storage is not configured. No spaces available."),
       [NetCall.listSpaces])
    else
      let spaces := response.spaces.getD []
      if spaces.length = 0 then
        (Except.ok (textResult
          "No spaces found. Download some Twitter Spaces to get started!"),
         [NetCall.listSpaces])
      else
        (Except.ok (textResult ("Found " ++ toString spaces.length ++
          " spaces:\n\n" ++ String.join (spaces.mapIdx renderSpaceEntry))),
         [NetCall.listSpaces])

/-- Case `download_and_transcribe_space`: availability check, then
download start + poll, then transcription start + poll, strictly in
sequence; the first failing stage throws and aborts the rest. -/
def caseDownloadAndTranscribe (args : CallParams) (b : ApiBackend) :
    Except ToolError ToolResult × List NetCall :=
  let space_url := args.space_url.getD ""
  match extractSpaceId space_url with
  | none => (Except.error ToolError.invalidSpaceUrl, [])
  | some spaceId =>
    match b.checkSpace spaceId with
    | Except.error e => (Except.error (ToolError.api e), [NetCall.checkSpace spaceId])
    | Except.ok availability =>
      if !availability.available then
        (Except.error (ToolError.spaceNotAvailable availability.error),
         [NetCall.checkSpace spaceId])
      else
        match b.startDownload space_url with
        | Except.error e =>
          (Except.error (ToolError.api e),
           [NetCall.checkSpace spaceId, NetCall.startDownload space_url])
        | Except.ok dr =>
          let po := pollForCompletion (b.downloadStatus dr.download_id)
            defaultCompleted defaultFailed downloadMaxAttempts downloadIntervalMs
          let t1 := [NetCall.checkSpace spaceId, NetCall.startDownload space_url] ++
            List.replicate po.statusCalls (NetCall.downloadStatus dr.download_id)
          match po.result with
          | Except.error pe => (Except.error (ToolError.poll pe), t1)
          | Except.ok downloadStatus =>
            match b.startTranscribe downloadStatus.space_id with
            | Except.error e =>
              (Except.error (ToolError.api e),
               t1 ++ [NetCall.startTranscribe downloadStatus.space_id])
            | Except.ok tr =>
              let po2 := pollForCompletion (b.transcriptionStatus tr.transcription_id)
                ["completed"] ["failed"] transcribeMaxAttempts transcribeIntervalMs
              let t2 := t1 ++ [NetCall.startTranscribe downloadStatus.space_id] ++
                List.replicate po2.statusCalls
                  (NetCall.transcriptionStatus tr.transcription_id)
              match po2.result with
              | Except.error pe => (Except.error (ToolError.poll pe), t2)
              | Except.ok _ =>
                (Except.ok (textResult
                  (completeProcessText space_url dr downloadStatus tr)), t2)

/-- The switch of `handleCallTool` (the body inside its try block): a
sequential dispatch on the tool name, the default branch throwing
`Unknown tool: <name>`. -/
def handleCallToolBody (params : CallParams) (b : ApiBackend) :
    Except ToolError ToolResult × List NetCall :=
  if params.name = "check_space_availability" then caseCheckSpaceAvailability params b
  else if params.name = "download_twitter_space" then caseDownloadTwitterSpace params b
  else if params.name = "transcribe_space" then caseTranscribeSpace params b
  else if params.name = "get_transcript" then caseGetTranscript params b
  else if params.name = "list_spaces" then caseListSpaces b
  else if params.name = "download_and_transcribe_space" then
    caseDownloadAndTranscribe params b
  else (Except.error (ToolError.unknownTool params.name), [])

/-- TS `handleCallTool`: the switch wrapped in try/catch — any thrown
error becomes a normal text result `Error: <message>`. -/
def handleCallTool (params : CallParams) (b : ApiBackend) :
    ToolResult × List NetCall :=
  match handleCallToolBody params b with
  | (Except.ok r, t) => (r, t)
  | (Except.error e, t) => (textResult ("Error: " ++ e.message), t)

/-- A JSON-RPC request id: string, number or null. -/
inductive RpcId where
  | str (s : String)
  | num (n : Int)
  | null
deriving Repr, DecidableEq

/-- A JSON-RPC error object. -/
structure RpcError where
  code : Int
  message : String
deriving Repr, DecidableEq

/-- The result payload of a successful JSON-RPC response.  The
`initialize` and `tools/list` payloads are fixed metadata objects the
claims never inspect, so they are represented by markers. -/
inductive McpResult where
  | initResult
  | toolsListResult
  | toolCallResult (r : ToolResult)
deriving Repr, DecidableEq

/-- A JSON-RPC request as dispatched by `handleMcpRequest`; `params` is
only read by `tools/call`. -/
structure JsonRpcRequest where
  id : RpcId
  method : String
  params : CallParams
deriving Repr, DecidableEq

/-- A JSON-RPC response envelope: exactly one of `result` / `error` is
set by every return site of `handleMcpRequest`. -/
structure JsonRpcResponse where
  id : RpcId
  result : Option McpResult := none
  error : Option RpcError := none
deriving Repr, DecidableEq

/-- TS `handleMcpRequest`: dispatch on the method; unknown methods get a
protocol-level error `-32601`, and `tools/call` wraps whatever
`handleCallTool` returns in a success envelope. -/
def handleMcpRequest (req : JsonRpcRequest) (b : ApiBackend) :
    JsonRpcResponse × List NetCall :=
  if req.method = "initialize" then
    ({ id := req.id, result := some McpResult.initResult }, [])
  else if req.method = "tools/list" then
    ({ id := req.id, result := some McpResult.toolsListResult }, [])
  else if req.method = "tools/call" then
    let (r, t) := handleCallTool req.params b
    ({ id := req.id, result := some (McpResult.toolCallResult r) }, t)
  else
    ({ id := req.id,
       error := some ⟨-32601, "Method not found: " ++ req.method⟩ }, [])

/-- A backend on which every HTTP call throws; used to instantiate
statements at inputs whose scenario issues no (or only failing) calls. -/
def unreachableBackend : ApiBackend where
  checkSpace := fun _ => Except.error "unreachable"
  startDownload := fun _ => Except.error "unreachable"
  downloadStatus := fun _ _ => Except.error "unreachable"
  startTranscribe := fun _ => Except.error "unreachable"
  transcriptionStatus := fun _ _ => Except.error "unreachable"
  fetchTranscript := fun _ _ => Except.error "unreachable"
  listSpaces := Except.error "unreachable"

/-- A backend whose availability check reports the space unavailable (no
error detail); every other call throws. -/
def unavailableBackend : ApiBackend :=
  { unreachableBackend with checkSpace := fun _ => Except.ok { available := false } }

/-- A backend whose `/api/spaces` response reports `r2_configured = false`
with the `spaces` field absent; every other call throws. -/
def r2OffBackend : ApiBackend :=
  { unreachableBackend with listSpaces := Except.ok { r2_configured := false } }

/-- Concrete status sequence: one `processing` tick, then `completed`. -/
def seqProcThenCompleted : Nat → Snapshot := fun n =>
  if n = 0 then { status := "processing", message := "m0" }
  else { status := "completed", message := "m1" }

/-- Concrete status sequence: one `processing` tick, then `failed` with a
populated error field. -/
def seqProcThenFailed : Nat → Snapshot := fun n =>
  if n = 0 then { status := "processing", message := "m0" }
  else { status := "failed", message := "boom", error := some "disk full" }

/-- Concrete status sequence that never reaches a terminal status. -/
def seqAlwaysProcessing : Nat → Snapshot := fun _ =>
  { status := "processing", message := "m" }

/-- One poll tick whose snapshot is non-terminal: one status call, one
sleep, then the loop continues at the next attempt. -/
theorem pollGo_succ_nonterminal (backend : Nat → Except String Snapshot)
    (completedS failedS : List String) (N I attempt fuel : Nat) (s : Snapshot)
    (hb : backend attempt = Except.ok s)
    (hc : s.status ∉ completedS) (hf : s.status ∉ failedS) :
    pollGo backend completedS failedS N I attempt (fuel + 1) =
      ⟨(pollGo backend completedS failedS N I (attempt + 1) fuel).result,
       (pollGo backend completedS failedS N I (attempt + 1) fuel).statusCalls + 1,
       I :: (pollGo backend completedS failedS N I (attempt + 1) fuel).sleeps⟩ := by
  simp [pollGo, hb, hc, hf]

/-- Running the loop across `k` leading non-terminal ticks: the outcome
is that of the loop started `k` attempts later, with `k` more status
calls and `k` more sleeps of duration `I` in front. -/
theorem pollGo_shift (backend : Nat → Except String Snapshot)
    (completedS failedS : List String) (N I : Nat) :
    ∀ (k attempt fuel : Nat), k ≤ fuel →
    (∀ j, j < k → ∃ s, backend (attempt + j) = Except.ok s ∧
        s.status ∉ completedS ∧ s.status ∉ failedS) →
    pollGo backend completedS failedS N I attempt fuel =
      ⟨(pollGo backend completedS failedS N I (attempt + k) (fuel - k)).result,
       (pollGo backend completedS failedS N I (attempt + k) (fuel - k)).statusCalls + k,
       List.replicate k I ++
         (pollGo backend completedS failedS N I (attempt + k) (fuel - k)).sleeps⟩ := by
  intro k
  induction k with
  | zero => intro attempt fuel _ _; simp
  | succ k ih =>
    intro attempt fuel hk hnt
    obtain ⟨fuel', rfl⟩ : ∃ f, fuel = f + 1 := ⟨fuel - 1, by omega⟩
    obtain ⟨s, hb, hc, hf⟩ := hnt 0 (by omega)
    rw [Nat.add_zero] at hb
    have hnt' : ∀ j, j < k → ∃ s, backend (attempt + 1 + j) = Except.ok s ∧
        s.status ∉ completedS ∧ s.status ∉ failedS := by
      intro j hj
      have h := hnt (j + 1) (by omega)
      have e : attempt + (j + 1) = attempt + 1 + j := by omega
      rwa [e] at h
    rw [pollGo_succ_nonterminal backend completedS failedS N I attempt fuel' s hb hc hf,
      ih (attempt + 1) fuel' (by omega) hnt']
    have e1 : attempt + 1 + k = attempt + (k + 1) := by omega
    have e2 : fuel' - k = fuel' + 1 - (k + 1) := by omega
    rw [e1, e2]
    simp only [PollOutcome.mk.injEq, List.replicate_succ, List.cons_append]
    exact ⟨trivial, rfl, trivial⟩

/-- Inversion for the `Operation failed` outcome: it can only arise from
a snapshot whose status is in `failedS` and **not** in `completedS`, and
it carries `error || message` of that snapshot. -/
theorem pollGo_operationFailed_inv (backend : Nat → Except String Snapshot)
    (completedS failedS : List String) (N I : Nat) :
    ∀ (fuel attempt : Nat) (m : String),
    (pollGo backend completedS failedS N I attempt fuel).result
        = Except.error (PollError.operationFailed m) →
    ∃ j s, j < fuel ∧ backend (attempt + j) = Except.ok s ∧
      s.status ∈ failedS ∧ s.status ∉ completedS ∧
      m = jsOrStr s.error s.message := by
  intro fuel
  induction fuel with
  | zero => intro attempt m h; simp [pollGo] at h
  | succ f ih =>
    intro attempt m h
    rw [pollGo] at h
    cases hb : backend attempt with
    | error e => rw [hb] at h; simp at h
    | ok s =>
      rw [hb] at h
      by_cases hc : s.status ∈ completedS
      · simp [hc] at h
      · by_cases hf : s.status ∈ failedS
        · simp [hc, hf] at h
          exact ⟨0, s, by omega, by simpa using hb, hf, hc, h.symm⟩
        · simp [hc, hf] at h
          obtain ⟨j, s', hj, hb', hf', hc', hm⟩ := ih (attempt + 1) m h
          exact ⟨j + 1, s', by omega, by
            have e : attempt + (j + 1) = attempt + 1 + j := by omega
            rwa [e], hf', hc', hm⟩

/-- One poll tick whose snapshot has a completed status: the snapshot is
returned at once, after a single status call and no sleep. -/
theorem pollGo_succ_completed (backend : Nat → Except String Snapshot)
    (completedS failedS : List String) (N I attempt fuel : Nat) (s : Snapshot)
    (hb : backend attempt = Except.ok s) (hc : s.status ∈ completedS) :
    pollGo backend completedS failedS N I attempt (fuel + 1) =
      ⟨Except.ok s, 1, []⟩ := by
  simp [pollGo, hb, hc]

/-- One poll tick whose snapshot has a failed (and not completed) status:
the loop throws `Operation failed` carrying `error || message`, after a
single status call and no sleep. -/
theorem pollGo_succ_failed (backend : Nat → Except String Snapshot)
    (completedS failedS : List String) (N I attempt fuel : Nat) (s : Snapshot)
    (hb : backend attempt = Except.ok s)
    (hc : s.status ∉ completedS) (hf : s.status ∈ failedS) :
    pollGo backend completedS failedS N I attempt (fuel + 1) =
      ⟨Except.error (PollError.operationFailed (jsOrStr s.error s.message)),
       1, []⟩ := by
  simp [pollGo, hb, hc, hf]

/-- Exhausting the attempt budget on all-non-terminal snapshots: the loop
throws the timeout error after `fuel` status calls and `fuel` sleeps. -/
theorem pollGo_timeout (backend : Nat → Except String Snapshot)
    (completedS failedS : List String) (N I : Nat) (fuel attempt : Nat)
    (hnt : ∀ j, j < fuel → ∃ s, backend (attempt + j) = Except.ok s ∧
        s.status ∉ completedS ∧ s.status ∉ failedS) :
    pollGo backend completedS failedS N I attempt fuel =
      ⟨Except.error (PollError.timeout N), fuel, List.replicate fuel I⟩ := by
  rw [pollGo_shift backend completedS failedS N I fuel attempt fuel (le_refl _) hnt]
  simp [pollGo]

/-- **C1.** For every `max_attempts` N ≥ 1, interval I, and a backend
status sequence whose k-th snapshot (k ≤ N) is the first with a status in
`completedStatuses` while none of the earlier k−1 snapshots has a status
in `failedStatuses`, `pollForCompletion` returns that k-th snapshot after
exactly k status calls and exactly k−1 sleeps of duration I. -/
theorem pollForCompletion_first_completed_snapshot
    (seq : Nat → Snapshot) (completedS failedS : List String) (N I k : Nat)
    (hk1 : 1 ≤ k) (hkN : k ≤ N)
    (hcomp : (seq (k - 1)).status ∈ completedS)
    (hfirst : ∀ j, j < k - 1 → (seq j).status ∉ completedS)
    (hnofail : ∀ j, j < k - 1 → (seq j).status ∉ failedS) :
    pollForCompletion (fun n => Except.ok (seq n)) completedS failedS N I =
      ⟨Except.ok (seq (k - 1)), k, List.replicate (k - 1) I⟩ := by
  obtain ⟨k', rfl⟩ : ∃ k', k = k' + 1 := ⟨k - 1, by omega⟩
  have hk1' : k' + 1 - 1 = k' := by omega
  rw [hk1'] at hcomp hfirst hnofail ⊢
  unfold pollForCompletion
  rw [pollGo_shift (fun n => Except.ok (seq n)) completedS failedS N I k' 0 N
    (by omega)
    (fun j hj => ⟨seq (0 + j), rfl, by simpa using hfirst j hj,
      by simpa using hnofail j hj⟩)]
  obtain ⟨f, hfN⟩ : ∃ f, N - k' = f + 1 := ⟨N - k' - 1, by omega⟩
  rw [hfN, pollGo_succ_completed (fun n => Except.ok (seq n)) completedS failedS
    N I (0 + k') f (seq (0 + k')) rfl (by simpa using hcomp)]
  simp [Nat.add_comm]

/-- Witness for C1 at N = 2, I = 5000, k = 2 on the sequence
`processing, completed, ...`. -/
theorem pollForCompletion_first_completed_snapshot_witness :
    pollForCompletion (fun n => Except.ok (seqProcThenCompleted n))
        ["completed"] ["failed"] 2 5000
      = ⟨Except.ok (seqProcThenCompleted 1), 2, List.replicate 1 5000⟩ :=
  pollForCompletion_first_completed_snapshot seqProcThenCompleted
    ["completed"] ["failed"] 2 5000 2 (by omega) (by omega)
    (by decide)
    (fun j hj => by
      have hj0 : j = 0 := by omega
      subst hj0; decide)
    (fun j hj => by
      have hj0 : j = 0 := by omega
      subst hj0; decide)

/-- **C2 as stated is refuted.**  First defect: with the default sets and
the sequence whose first snapshot is `failed` with `error` *present but
empty* and `message = "boom"`, the thrown error carries the message
field, not the (present) error field — JS `error || message` treats the
empty string as falsy.  Second defect: with overlapping sets, a first
failed snapshot whose status is *also* in `completedStatuses` is returned
as a success, so no `OperationFailed` error is raised at all. -/
theorem pollForCompletion_first_failed_counterexample :
    (pollForCompletion
        (fun _ => Except.ok
          { status := "failed", message := "boom", error := some "" })
        ["completed"] ["failed"] 1 5000).result
      = Except.error (PollError.operationFailed "boom") ∧
    some ("" : String) ≠ none ∧ ("boom" : String) ≠ "" ∧
    (pollForCompletion
        (fun _ => Except.ok { status := "done", message := "m" })
        ["done"] ["done"] 1 5000).result
      = Except.ok { status := "done", message := "m" } := by
  refine ⟨by decide, by decide, by decide, by decide⟩

/-- **C2 (amended).**  For every status sequence whose k-th snapshot
(k ≤ max_attempts) is the first with a status in `failedStatuses`, whose
status is **not** in `completedStatuses`, and none of whose earlier
snapshots has a status in `completedStatuses`, `pollForCompletion` fails
with an `OperationFailed` error after exactly k status calls, makes no
further status calls, and the error carries the snapshot's error field
when that field is present and non-empty, and its message field otherwise
(`error || message`). -/
theorem pollForCompletion_first_failed_snapshot
    (seq : Nat → Snapshot) (completedS failedS : List String) (N I k : Nat)
    (hk1 : 1 ≤ k) (hkN : k ≤ N)
    (hfail : (seq (k - 1)).status ∈ failedS)
    (hnotc : (seq (k - 1)).status ∉ completedS)
    (hfirst : ∀ j, j < k - 1 → (seq j).status ∉ failedS)
    (hnoc : ∀ j, j < k - 1 → (seq j).status ∉ completedS) :
    pollForCompletion (fun n => Except.ok (seq n)) completedS failedS N I =
      ⟨Except.error (PollError.operationFailed
          (jsOrStr (seq (k - 1)).error (seq (k - 1)).message)),
       k, List.replicate (k - 1) I⟩ := by
  obtain ⟨k', rfl⟩ : ∃ k', k = k' + 1 := ⟨k - 1, by omega⟩
  have hk1' : k' + 1 - 1 = k' := by omega
  rw [hk1'] at hfail hnotc hfirst hnoc ⊢
  unfold pollForCompletion
  rw [pollGo_shift (fun n => Except.ok (seq n)) completedS failedS N I k' 0 N
    (by omega)
    (fun j hj => ⟨seq (0 + j), rfl, by simpa using hnoc j hj,
      by simpa using hfirst j hj⟩)]
  obtain ⟨f, hfN⟩ : ∃ f, N - k' = f + 1 := ⟨N - k' - 1, by omega⟩
  rw [hfN, pollGo_succ_failed (fun n => Except.ok (seq n)) completedS failedS
    N I (0 + k') f (seq (0 + k')) rfl (by simpa using hnotc)
    (by simpa using hfail)]
  simp [Nat.add_comm]

/-- Witness for amended C2 at N = 3, I = 7, k = 2 on the sequence
`processing, failed(error "disk full"), ...`. -/
theorem pollForCompletion_first_failed_snapshot_witness :
    pollForCompletion (fun n => Except.ok (seqProcThenFailed n))
        ["completed"] ["failed"] 3 7
      = ⟨Except.error (PollError.operationFailed "disk full"), 2,
         List.replicate 1 7⟩ :=
  pollForCompletion_first_failed_snapshot seqProcThenFailed
    ["completed"] ["failed"] 3 7 2 (by omega) (by omega)
    (by decide) (by decide)
    (fun j hj => by
      have hj0 : j = 0 := by omega
      subst hj0; decide)
    (fun j hj => by
      have hj0 : j = 0 := by omega
      subst hj0; decide)

/-- **C3.** For every status sequence whose first N = `maxAttempts`
snapshots all have a status outside both sets, `pollForCompletion` fails
with a `Timeout` error after exactly N status calls, and the error names
the attempt count N (its message is
`Operation timed out after N attempts`). -/
theorem pollForCompletion_timeout_after_max_attempts
    (seq : Nat → Snapshot) (completedS failedS : List String) (N I : Nat)
    (hall : ∀ j, j < N →
      (seq j).status ∉ completedS ∧ (seq j).status ∉ failedS) :
    pollForCompletion (fun n => Except.ok (seq n)) completedS failedS N I =
      ⟨Except.error (PollError.timeout N), N, List.replicate N I⟩ ∧
    (PollError.timeout N).message
      = "Operation timed out after " ++ toString N ++ " attempts" := by
  refine ⟨?_, rfl⟩
  unfold pollForCompletion
  exact pollGo_timeout (fun n => Except.ok (seq n)) completedS failedS N I N 0
    (fun j hj => ⟨seq (0 + j), rfl, by simpa using (hall j hj).1,
      by simpa using (hall j hj).2⟩)

/-- Witness for C3 at N = 2, I = 9 on the always-`processing` sequence. -/
theorem pollForCompletion_timeout_after_max_attempts_witness :
    pollForCompletion (fun n => Except.ok (seqAlwaysProcessing n))
        ["completed"] ["failed"] 2 9
      = ⟨Except.error (PollError.timeout 2), 2, List.replicate 2 9⟩ ∧
    (PollError.timeout 2).message
      = "Operation timed out after " ++ toString 2 ++ " attempts" :=
  pollForCompletion_timeout_after_max_attempts seqAlwaysProcessing
    ["completed"] ["failed"] 2 9
    (fun j hj => ⟨by simp [seqAlwaysProcessing], by simp [seqAlwaysProcessing]⟩)

/-- **C9.** The completed check precedes the failed check on every tick:
a snapshot whose status is in **both** sets is returned as a success, and
the `OperationFailed` branch is reachable only from a snapshot whose
status is in `failedStatuses` but not in `completedStatuses`. -/
theorem pollForCompletion_completed_check_precedes_failed :
    (∀ (seq : Nat → Snapshot) (completedS failedS : List String) (N I k : Nat),
      k < N →
      (∀ j, j < k → (seq j).status ∉ completedS ∧ (seq j).status ∉ failedS) →
      (seq k).status ∈ completedS → (seq k).status ∈ failedS →
      (pollForCompletion (fun n => Except.ok (seq n))
          completedS failedS N I).result
        = Except.ok (seq k)) ∧
    (∀ (backend : Nat → Except String Snapshot)
        (completedS failedS : List String) (N I : Nat) (m : String),
      (pollForCompletion backend completedS failedS N I).result
          = Except.error (PollError.operationFailed m) →
      ∃ j s, j < N ∧ backend j = Except.ok s ∧ s.status ∈ failedS ∧
        s.status ∉ completedS ∧ m = jsOrStr s.error s.message) := by
  constructor
  · intro seq completedS failedS N I k hkN hnt hcomp _hfail
    unfold pollForCompletion
    rw [pollGo_shift (fun n => Except.ok (seq n)) completedS failedS N I k 0 N
      (by omega)
      (fun j hj => ⟨seq (0 + j), rfl, by simpa using (hnt j hj).1,
        by simpa using (hnt j hj).2⟩)]
    obtain ⟨f, hfN⟩ : ∃ f, N - k = f + 1 := ⟨N - k - 1, by omega⟩
    rw [hfN, pollGo_succ_completed (fun n => Except.ok (seq n)) completedS
      failedS N I (0 + k) f (seq (0 + k)) rfl (by simpa using hcomp)]
    simp
  · intro backend completedS failedS N I m h
    unfold pollForCompletion at h
    obtain ⟨j, s, hj, hb, hf, hc, hm⟩ :=
      pollGo_operationFailed_inv backend completedS failedS N I N 0 m h
    exact ⟨j, s, hj, by simpa using hb, hf, hc, hm⟩

/-- Witness for C9 at a status in both sets on the first tick. -/
theorem pollForCompletion_completed_check_precedes_failed_witness :
    (pollForCompletion
        (fun _ => Except.ok ({ status := "done", message := "m" } : Snapshot))
        ["done"] ["done"] 1 5).result
      = Except.ok ({ status := "done", message := "m" } : Snapshot) :=
  pollForCompletion_completed_check_precedes_failed.1
    (fun _ => { status := "done", message := "m" }) ["done"] ["done"] 1 5 0
    (by omega) (fun j hj => absurd hj (by omega)) (by decide) (by decide)

/-- **C10.** On the timeout path every tick is non-terminal, and each
one — including the final, `maxAttempts`-th one — sleeps for `intervalMs`
before the loop continues: the run performs exactly `maxAttempts` sleeps
of duration I, one per status call (so one sleep follows the last status
call before the timeout error is raised). -/
theorem pollForCompletion_timeout_sleeps_every_tick
    (seq : Nat → Snapshot) (completedS failedS : List String) (N I : Nat)
    (hall : ∀ j, j < N →
      (seq j).status ∉ completedS ∧ (seq j).status ∉ failedS) :
    (pollForCompletion (fun n => Except.ok (seq n))
        completedS failedS N I).sleeps = List.replicate N I ∧
    (pollForCompletion (fun n => Except.ok (seq n))
        completedS failedS N I).sleeps.length
      = (pollForCompletion (fun n => Except.ok (seq n))
          completedS failedS N I).statusCalls ∧
    (pollForCompletion (fun n => Except.ok (seq n))
        completedS failedS N I).result
      = Except.error (PollError.timeout N) := by
  have h : pollForCompletion (fun n => Except.ok (seq n)) completedS failedS
      N I = ⟨Except.error (PollError.timeout N), N, List.replicate N I⟩ := by
    unfold pollForCompletion
    exact pollGo_timeout (fun n => Except.ok (seq n)) completedS failedS N I N 0
      (fun j hj => ⟨seq (0 + j), rfl, by simpa using (hall j hj).1,
        by simpa using (hall j hj).2⟩)
  rw [h]
  simp

/-- Witness for C10 at N = 3, I = 4 on the always-`processing`
sequence. -/
theorem pollForCompletion_timeout_sleeps_every_tick_witness :
    (pollForCompletion (fun n => Except.ok (seqAlwaysProcessing n))
        ["completed"] ["failed"] 3 4).sleeps = List.replicate 3 4 ∧
    (pollForCompletion (fun n => Except.ok (seqAlwaysProcessing n))
        ["completed"] ["failed"] 3 4).sleeps.length
      = (pollForCompletion (fun n => Except.ok (seqAlwaysProcessing n))
          ["completed"] ["failed"] 3 4).statusCalls ∧
    (pollForCompletion (fun n => Except.ok (seqAlwaysProcessing n))
        ["completed"] ["failed"] 3 4).result
      = Except.error (PollError.timeout 3) :=
  pollForCompletion_timeout_sleeps_every_tick seqAlwaysProcessing
    ["completed"] ["failed"] 3 4
    (fun j hj => ⟨by simp [seqAlwaysProcessing], by simp [seqAlwaysProcessing]⟩)

/-- A non-empty `takeWhile` forces a head satisfying the predicate. -/
theorem takeWhile_ne_nil_head {p : Char → Bool} {l : List Char}
    (h : l.takeWhile p ≠ []) : ∃ c rest, l = c :: rest ∧ p c = true := by
  cases l with
  | nil => simp at h
  | cons c rest =>
    by_cases hp : p c = true
    · exact ⟨c, rest, rfl, hp⟩
    · simp [List.takeWhile_cons, hp] at h

/-- A successful scan yields a decomposition of the input around the
literal `/spaces/` followed by an alphanumeric character. -/
theorem findSpaceId_some_decomp :
    ∀ (l cap : List Char), findSpaceId l = some cap →
    ∃ pre c rest, l = pre ++ spacesLit ++ c :: rest ∧
      isSpaceIdChar c = true := by
  intro l
  induction l with
  | nil => intro cap h; simp [findSpaceId] at h
  | cons c0 tl ih =>
    intro cap h
    rw [findSpaceId] at h
    cases hca : captureAt (c0 :: tl) with
    | none =>
      rw [hca] at h
      obtain ⟨pre, c, rest, hd, hc⟩ := ih cap h
      exact ⟨c0 :: pre, c, rest, by rw [hd]; rfl, hc⟩
    | some cap' =>
      unfold captureAt at hca
      by_cases ht : (c0 :: tl).take 8 = spacesLit
      · have hdec : c0 :: tl = spacesLit ++ (c0 :: tl).drop 8 := by
          conv_lhs => rw [← List.take_append_drop 8 (c0 :: tl)]
          rw [ht]
        by_cases hcap : ((c0 :: tl).drop 8).takeWhile isSpaceIdChar = []
        · rw [if_pos ht, if_pos hcap] at hca
          exact absurd hca (by simp)
        · obtain ⟨c, rest, hdr, hc⟩ := takeWhile_ne_nil_head hcap
          exact ⟨[], c, rest, by rw [hdec, hdr]; rfl, hc⟩
      · rw [if_neg ht] at hca
        exact absurd hca (by simp)

/-- `captureAt` succeeds on a list that starts with `/spaces/` followed
by an alphanumeric character. -/
theorem captureAt_some_at_decomp (c : Char) (rest : List Char)
    (hc : isSpaceIdChar c = true) :
    ∃ cap, captureAt (spacesLit ++ c :: rest) = some cap := by
  have hlen : spacesLit.length = 8 := by decide
  have ht : (spacesLit ++ c :: rest).take 8 = spacesLit := by
    rw [← hlen]; exact List.take_left spacesLit (c :: rest)
  have hd : (spacesLit ++ c :: rest).drop 8 = c :: rest := by
    rw [← hlen]; exact List.drop_left spacesLit (c :: rest)
  unfold captureAt
  rw [ht, hd]
  simp [List.takeWhile_cons, hc]

/-- If `captureAt` matches somewhere, the scan returns a match. -/
theorem findSpaceId_isSome_of_captureAt (l : List Char)
    (h : ∃ cap, captureAt l = some cap) :
    (findSpaceId l).isSome = true := by
  obtain ⟨cap, hcap⟩ := h
  cases l with
  | nil =>
    rw [show captureAt ([] : List Char) = none from rfl] at hcap
    exact absurd hcap (by simp)
  | cons c0 tl => rw [findSpaceId, hcap]; rfl

/-- A decomposition point anywhere in the list makes the scan succeed. -/
theorem findSpaceId_isSome_of_decomp :
    ∀ (pre : List Char) (c : Char) (rest : List Char),
    isSpaceIdChar c = true →
    (findSpaceId (pre ++ spacesLit ++ c :: rest)).isSome = true := by
  intro pre
  induction pre with
  | nil =>
    intro c rest hc
    have h0 : ([] : List Char) ++ spacesLit ++ c :: rest
        = spacesLit ++ c :: rest := by simp
    rw [h0]
    exact findSpaceId_isSome_of_captureAt _ (captureAt_some_at_decomp c rest hc)
  | cons p ps ih =>
    intro c rest hc
    have h0 : (p :: ps) ++ spacesLit ++ c :: rest
        = p :: (ps ++ spacesLit ++ c :: rest) := rfl
    rw [h0, findSpaceId]
    cases hca : captureAt (p :: (ps ++ spacesLit ++ c :: rest)) with
    | some cap => rfl
    | none => exact ih c rest hc

/-- The embedded regex finds a match on every URL that has a `/spaces/`
segment followed by an alphanumeric character. -/
theorem extractSpaceId_isSome_of_segment (s : String)
    (h : HasSpacesSegment s) : (extractSpaceId s).isSome = true := by
  obtain ⟨pre, c, rest, hd, hc⟩ := h
  unfold extractSpaceId
  rw [Option.isSome_map', hd]
  exact findSpaceId_isSome_of_decomp pre c rest hc

/-- The embedded regex fails exactly on URLs without such a segment. -/
theorem extractSpaceId_none_of_no_segment (s : String)
    (h : ¬ HasSpacesSegment s) : extractSpaceId s = none := by
  cases he : extractSpaceId s with
  | none => rfl
  | some r =>
    exfalso
    unfold extractSpaceId at he
    cases hf : findSpaceId s.data with
    | none => rw [hf] at he; exact absurd he (by simp)
    | some cap =>
      obtain ⟨pre, c, rest, hd, hc⟩ := findSpaceId_some_decomp s.data cap hf
      exact h ⟨pre, c, rest, hd, hc⟩

/-- **C6.** For every `space_url` that contains no path segment matching
`/spaces/` followed by one or more alphanumeric characters,
`check_space_availability` fails with the invalid-input error
(`Invalid space URL format`) before making any network call: its body
throws with an empty network trace, and the handler returns the error
text with an empty network trace. -/
theorem checkSpaceAvailability_invalid_url_no_network_call
    (b : ApiBackend) (url : String) (h : ¬ HasSpacesSegment url) :
    handleCallToolBody
        { name := "check_space_availability", space_url := some url } b
      = (Except.error ToolError.invalidSpaceUrl, []) ∧
    handleCallTool
        { name := "check_space_availability", space_url := some url } b
      = (textResult "Error: Invalid space URL format", []) := by
  have hex : extractSpaceId url = none := extractSpaceId_none_of_no_segment url h
  have h1 : handleCallToolBody
      { name := "check_space_availability", space_url := some url } b
      = (Except.error ToolError.invalidSpaceUrl, []) := by
    simp [handleCallToolBody, caseCheckSpaceAvailability, hex]
  refine ⟨h1, ?_⟩
  simp only [handleCallTool, h1]
  rfl

/-- Witness for C6 on the segment-free URL `"nope"`. -/
theorem checkSpaceAvailability_invalid_url_no_network_call_witness :
    handleCallToolBody
        { name := "check_space_availability", space_url := some "nope" }
        unreachableBackend
      = (Except.error ToolError.invalidSpaceUrl, []) ∧
    handleCallTool
        { name := "check_space_availability", space_url := some "nope" }
        unreachableBackend
      = (textResult "Error: Invalid space URL format", []) :=
  checkSpaceAvailability_invalid_url_no_network_call unreachableBackend "nope"
    (fun hs => absurd (extractSpaceId_isSome_of_segment "nope" hs) (by decide))

/-- **C4.** Every tool handler is a boundary: whenever the switch body
throws (any error from its HTTP or polling calls, or the unknown-tool
throw), `handleCallTool` returns the normal success-shaped text result
`Error: <message>` with the same network trace, and the protocol layer
wraps it in a success envelope — the `tools/call` response carries no
protocol-level error, so no exception from a tool body crosses into the
outer protocol layer. -/
theorem handleCallTool_error_boundary (params : CallParams) (b : ApiBackend)
    (e : ToolError) (t : List NetCall)
    (h : handleCallToolBody params b = (Except.error e, t)) :
    handleCallTool params b = (textResult ("Error: " ++ e.message), t) ∧
    ∀ rid : RpcId,
      (handleMcpRequest ⟨rid, "tools/call", params⟩ b).1.error = none ∧
      (handleMcpRequest ⟨rid, "tools/call", params⟩ b).1.result
        = some (McpResult.toolCallResult
            (textResult ("Error: " ++ e.message))) := by
  have h1 : handleCallTool params b
      = (textResult ("Error: " ++ e.message), t) := by
    simp [handleCallTool, h]
  refine ⟨h1, fun rid => ?_⟩
  constructor <;> simp [handleMcpRequest, h1]

/-- Witness for C4: an unknown tool name on a backend whose every call
throws. -/
theorem handleCallTool_error_boundary_witness :
    handleCallTool { name := "bogus_tool" } unreachableBackend
      = (textResult
          ("Error: " ++ (ToolError.unknownTool "bogus_tool").message), []) ∧
    (handleMcpRequest ⟨RpcId.num 1, "tools/call", { name := "bogus_tool" }⟩
        unreachableBackend).1.error = none :=
  ⟨(handleCallTool_error_boundary { name := "bogus_tool" } unreachableBackend
      (ToolError.unknownTool "bogus_tool") [] (by decide)).1,
   ((handleCallTool_error_boundary { name := "bogus_tool" } unreachableBackend
      (ToolError.unknownTool "bogus_tool") [] (by decide)).2 (RpcId.num 1)).1⟩

/-- **C5.** When the availability check of `download_and_transcribe_space`
reports `available = false`, the handler makes exactly one network call
(the availability check), performs no download or transcribe calls, and
surfaces that stage's error (`Space not available: ...`) in its text
result. -/
theorem downloadAndTranscribe_unavailable_single_call
    (b : ApiBackend) (url spaceId : String)
    (avail : SpaceAvailabilityResponse)
    (hid : extractSpaceId url = some spaceId)
    (hav : b.checkSpace spaceId = Except.ok avail)
    (hfalse : avail.available = false) :
    handleCallToolBody
        { name := "download_and_transcribe_space", space_url := some url } b
      = (Except.error (ToolError.spaceNotAvailable avail.error),
         [NetCall.checkSpace spaceId]) ∧
    handleCallTool
        { name := "download_and_transcribe_space", space_url := some url } b
      = (textResult ("Error: Space not available: " ++ jsShow avail.error),
         [NetCall.checkSpace spaceId]) := by
  have h1 : handleCallToolBody
      { name := "download_and_transcribe_space", space_url := some url } b
      = (Except.error (ToolError.spaceNotAvailable avail.error),
         [NetCall.checkSpace spaceId]) := by
    simp [handleCallToolBody, caseDownloadAndTranscribe, hid, hav, hfalse]
  refine ⟨h1, ?_⟩
  simp only [handleCallTool, h1]
  rfl

/-- Witness for C5 on the example URL against a backend reporting the
space unavailable. -/
theorem downloadAndTranscribe_unavailable_single_call_witness :
    handleCallToolBody
        { name := "download_and_transcribe_space",
          space_url := some "https://x.com/i/spaces/1ZkKzYLnWOLxv" }
        unavailableBackend
      = (Except.error (ToolError.spaceNotAvailable none),
         [NetCall.checkSpace "1ZkKzYLnWOLxv"]) ∧
    handleCallTool
        { name := "download_and_transcribe_space",
          space_url := some "https://x.com/i/spaces/1ZkKzYLnWOLxv" }
        unavailableBackend
      = (textResult ("Error: Space not available: " ++ jsShow none),
         [NetCall.checkSpace "1ZkKzYLnWOLxv"]) :=
  downloadAndTranscribe_unavailable_single_call unavailableBackend
    "https://x.com/i/spaces/1ZkKzYLnWOLxv" "1ZkKzYLnWOLxv"
    { available := false } (by decide) rfl rfl

/-- **C7.** When the `/api/spaces` response has `r2_configured = false`,
`list_spaces` returns a non-error explanatory text result listing zero
spaces — the body succeeds (no throw) with the fixed explanatory text —
even when the `spaces` field is absent (the statement quantifies over
every `spaces` value, including `none`). -/
theorem listSpaces_r2_not_configured (b : ApiBackend)
    (resp : SpacesResponse) (hr : b.listSpaces = Except.ok resp)
    (hc : resp.r2_configured = false) :
    handleCallToolBody { name := "list_spaces" } b
      = (Except.ok (textResult
          "R2 storage is not configured. No spaces available."),
         [NetCall.listSpaces]) ∧
    handleCallTool { name := "list_spaces" } b
      = (textResult "R2 storage is not configured. No spaces available.",
         [NetCall.listSpaces]) := by
  have h1 : handleCallToolBody { name := "list_spaces" } b
      = (Except.ok (textResult
          "R2 storage is not configured. No spaces available."),
         [NetCall.listSpaces]) := by
    simp [handleCallToolBody, caseListSpaces, hr, hc]
  refine ⟨h1, ?_⟩
  simp only [handleCallTool, h1]

/-- Witness for C7 against a backend whose spaces response has
`r2_configured = false` and no `spaces` field. -/
theorem listSpaces_r2_not_configured_witness :
    handleCallToolBody { name := "list_spaces" } r2OffBackend
      = (Except.ok (textResult
          "R2 storage is not configured. No spaces available."),
         [NetCall.listSpaces]) ∧
    handleCallTool { name := "list_spaces" } r2OffBackend
      = (textResult "R2 storage is not configured. No spaces available.",
         [NetCall.listSpaces]) :=
  listSpaces_r2_not_configured r2OffBackend { r2_configured := false } rfl rfl

/-- **C8 as stated is refuted.**  An unknown tool name passed to
`tools/call` is **not** reported with a protocol-level error code: the
default branch's throw is caught by `handleCallTool`'s own catch, so the
envelope is a success (`error = none`) whose result is the tool-content
text `Error: Unknown tool: ...`. -/
theorem unknownTool_content_text_counterexample :
    (handleMcpRequest ⟨RpcId.num 1, "tools/call", { name := "bogus_tool" }⟩
        unreachableBackend).1
      = ⟨RpcId.num 1,
         some (McpResult.toolCallResult
           (textResult "Error: Unknown tool: bogus_tool")),
         none⟩ := by decide

/-- **C8 (amended).**  An unknown JSON-RPC method is reported with the
standard protocol-level error code `-32601` in the response envelope (and
no result), while an unknown tool name passed to `tools/call` is reported
as tool-content error text inside a successful envelope with no
protocol-level error. -/
theorem unsupported_operation_reporting (req : JsonRpcRequest)
    (b : ApiBackend)
    (h1 : req.method ≠ "initialize") (h2 : req.method ≠ "tools/list")
    (h3 : req.method ≠ "tools/call") :
    (handleMcpRequest req b).1
      = ⟨req.id, none,
         some ⟨-32601, "Method not found: " ++ req.method⟩⟩ ∧
    (∀ (params : CallParams) (b2 : ApiBackend) (rid : RpcId),
      params.name ≠ "check_space_availability" →
      params.name ≠ "download_twitter_space" →
      params.name ≠ "transcribe_space" →
      params.name ≠ "get_transcript" →
      params.name ≠ "list_spaces" →
      params.name ≠ "download_and_transcribe_space" →
      (handleMcpRequest ⟨rid, "tools/call", params⟩ b2).1
        = ⟨rid,
           some (McpResult.toolCallResult
             (textResult ("Error: Unknown tool: " ++ params.name))),
           none⟩) := by
  constructor
  · simp [handleMcpRequest, h1, h2, h3]
  · intro params b2 rid hn1 hn2 hn3 hn4 hn5 hn6
    have hb : handleCallToolBody params b2
        = (Except.error (ToolError.unknownTool params.name), []) := by
      simp [handleCallToolBody, hn1, hn2, hn3, hn4, hn5, hn6]
    simp [handleMcpRequest, handleCallTool, hb, ToolError.message]
    rfl

/-- Witness for amended C8: an unknown method and an unknown tool name,
at concrete requests. -/
theorem unsupported_operation_reporting_witness :
    (handleMcpRequest ⟨RpcId.num 7, "frobnicate", { name := "x" }⟩
        unreachableBackend).1
      = ⟨RpcId.num 7, none,
         some ⟨-32601, "Method not found: " ++ "frobnicate"⟩⟩ ∧
    (handleMcpRequest ⟨RpcId.num 7, "tools/call", { name := "bogus2" }⟩
        unreachableBackend).1
      = ⟨RpcId.num 7,
         some (McpResult.toolCallResult
           (textResult ("Error: Unknown tool: " ++ "bogus2"))),
         none⟩ :=
  ⟨(unsupported_operation_reporting
      ⟨RpcId.num 7, "frobnicate", { name := "x" }⟩
      unreachableBackend (by decide) (by decide) (by decide)).1,
   (unsupported_operation_reporting
      ⟨RpcId.num 7, "frobnicate", { name := "x" }⟩
      unreachableBackend (by decide) (by decide) (by decide)).2
     { name := "bogus2" } unreachableBackend (RpcId.num 7)
     (by decide) (by decide) (by decide) (by decide) (by decide) (by decide)⟩

end SpacesMcp
